import Mathlib

/-!
Verification of the StyleAura catalog service (`src/main.py`) against its
specification.  The filter-to-query translation (`list_products`, lines
147–166), the id-normalisation post-processing (lines 169–173), the seeding
endpoint (`seed_products`, lines 74–131) and the single-record lookup
(`get_product`, lines 176–188) are embedded shallowly below.

The store adapter (`database.py`: the `db` handle, `create_document`,
`get_documents`) is part of this repository but is not present under `src/`,
and the query-evaluation semantics live in the external document store
(MongoDB).  Those parts are modelled from the spec (§3, §4.1, §4.2, §9) and
are marked `Modelled from the spec:` in their doc comments.  Everything else
is translated directly from `src/main.py`.
-/

namespace StyleAura

/-- A field value of a schemaless product document.  Covers the value shapes
the service reads and writes: strings, numbers (modelled as rationals),
booleans, lists of strings (images, sizes, colors, tags) and store-native
identifiers. -/
inductive Value where
  | str (s : String)
  | num (x : ℚ)
  | bool (b : Bool)
  | listStr (l : List String)
  | oid (o : String)
deriving DecidableEq, Repr

/-- A schemaless document: an association list from field names to values
(Python dict with unique keys). -/
abbrev Doc := List (String × Value)

/-- Field lookup in a document (`d.get(k)` / `d[k]`). -/
def docGet : Doc → String → Option Value
  | [], _ => none
  | p :: t, k => if p.1 = k then some p.2 else docGet t k

/-- Field assignment on an existing key (`d[k] = v`), keeping key order.
Only used where the key is known to be present, as in the source. -/
def docSet : Doc → String → Value → Doc
  | [], _, _ => []
  | p :: t, k, v => if p.1 = k then (k, v) :: docSet t k v else p :: docSet t k v

/-- Python truthiness of a value, as used by `if d.get("_id"):`. -/
def valueTruthy : Value → Bool
  | .str s => s ≠ ""
  | .num x => x ≠ 0
  | .bool b => b
  | .listStr l => !l.isEmpty
  | .oid _ => true

/-- Python `str()` applied to a field value; on a store-native identifier it
yields the canonical hex string form. -/
def valueToString : Value → String
  | .str s => s
  | .num x => toString x
  | .bool b => toString b
  | .listStr l => toString l
  | .oid o => o

/-- Python truthiness of an `Optional[str]` parameter (`if category:`):
`None` and the empty string are falsy. -/
def optStrTruthy : Option String → Bool
  | some s => s ≠ ""
  | none => false

/-- Hex digit test for identifier validation. -/
def isHexChar (c : Char) : Bool :=
  c.isDigit || ('a' ≤ c && c ≤ 'f') || ('A' ≤ c && c ≤ 'F')

/-- Modelled from the spec: the store's native identifier (`bson.ObjectId`,
an external collaborator).  §3: "store-native opaque id on write/storage;
rendered to a canonical printable string form on every record returned, and
parsed/validated from a printable string form on every lookup-by-id
request."  Represented by its canonical 24-hex-character string form. -/
structure ObjectId where
  hex : String
deriving DecidableEq, Repr

/-- Character-wise lowercasing of a string. -/
def lowerStr (s : String) : String :=
  String.mk (s.toList.map Char.toLower)

/-- Modelled from the spec: parsing a caller-supplied string into the
store's native identifier form (`ObjectId(product_id)` in the source; the
constructor, from the external `bson` library, accepts exactly a
24-hex-character string and raises otherwise, and the canonical string
form is lowercase hex). -/
def ObjectId.parse (s : String) : Option ObjectId :=
  if s.length = 24 && s.toList.all isHexChar then some ⟨lowerStr s⟩ else none

/-- Modelled from the spec: a fresh store-generated identifier (§3:
"generated at insert time by the store").  Deterministic generator from an
insertion counter, padded to the 24-hex-character canonical form. -/
def ObjectId.fresh (n : Nat) : ObjectId :=
  let ds := Nat.toDigits 16 n
  ⟨String.mk (List.replicate (24 - ds.length) '0' ++ ds)⟩

/-- The filter parameters of `list_products` (mirrors the query parameters
at lines 136–141; `ProductFilter` at lines 20–26 has the same fields). -/
structure ProductFilter where
  category : Option String := none
  min_price : Option ℚ := none
  max_price : Option ℚ := none
  size : Option String := none
  color : Option String := none
  q : Option String := none
deriving DecidableEq, Repr

/-- One pattern-match clause of the free-text `$or` disjunction:
`{field: {"$regex": pattern, "$options": "i"}}`. -/
structure RegexClause where
  field : String
  pattern : String
  caseInsensitive : Bool
deriving DecidableEq, Repr

/-- The price sub-document `{"$gte": …, "$lte": …}` with only the present
bounds (lines 151–155). -/
structure PriceFilter where
  gte : Option ℚ
  lte : Option ℚ
deriving DecidableEq, Repr

/-- The composite query dict built by `list_products` (lines 147–166): at
most one entry per key among `category`, `price`, `sizes`, `colors`, `$or`. -/
structure Query where
  category : Option String
  price : Option PriceFilter
  sizes : Option String
  colors : Option String
  orClauses : Option (List RegexClause)
deriving DecidableEq, Repr

/-- The empty composite query `{}` (line 147). -/
def emptyQuery : Query := ⟨none, none, none, none, none⟩

/-- The query-construction logic of `list_products`, lines 147–166,
translated clause by clause:
`if category: query["category"] = category`;
`if min_price is not None or max_price is not None: …`;
`if size: query["sizes"] = {"$in": [size]}`;
`if color: query["colors"] = {"$in": [color]}`;
`if q: query["$or"] = [title/description/tags regex clauses]`. -/
def buildQuery (f : ProductFilter) : Query :=
  let cat := if optStrTruthy f.category then f.category else none
  let price :=
    if f.min_price.isSome || f.max_price.isSome
    then some ⟨f.min_price, f.max_price⟩
    else none
  let sizes := if optStrTruthy f.size then f.size else none
  let colors := if optStrTruthy f.color then f.color else none
  let orClauses :=
    match f.q with
    | some qs =>
        if qs ≠ "" then
          some [⟨"title", qs, true⟩, ⟨"description", qs, true⟩,
                ⟨"tags", qs, true⟩]
        else none
    | none => none
  ⟨cat, price, sizes, colors, orClauses⟩

/-- `needle` occurs as a contiguous sublist of `hay`. -/
def listContainsSub (needle hay : List Char) : Bool :=
  hay.tails.any (fun t => needle.isPrefixOf t)

/-- Case-insensitive substring containment on strings. -/
def strContainsCI (hay needle : String) : Bool :=
  listContainsSub needle.toLower.toList hay.toLower.toList

/-- Modelled from the spec: whether a field value contains a pattern as a
case-insensitive substring (§4.2 rule 5: "case-insensitive substring-match
constraints"; on a list-valued field such as tags, the store matches the
pattern against each element). -/
def valueContainsCI (v : Value) (pat : String) : Bool :=
  match v with
  | .str s => strContainsCI s pat
  | .listStr l => l.any (fun s => strContainsCI s pat)
  | _ => false

/-- Whether the named field of a document contains the pattern
case-insensitively (an absent field matches nothing). -/
def fieldContainsCI (d : Doc) (fld pat : String) : Bool :=
  match docGet d fld with
  | some v => valueContainsCI v pat
  | none => false

/-- Modelled from the spec: evaluation of one pattern clause by the store
(§3: "disjunction of pattern-matches"; the `"$options": "i"` flag makes the
match case-insensitive). -/
def matchClause (d : Doc) (c : RegexClause) : Bool :=
  if c.caseInsensitive then fieldContainsCI d c.field c.pattern
  else
    match docGet d c.field with
    | some (.str s) => listContainsSub c.pattern.toList s.toList
    | some (.listStr l) => l.any (fun s => listContainsSub c.pattern.toList s.toList)
    | _ => false

/-- Modelled from the spec: the exact-match constraint on the category
field (§4.2 rule 1). -/
def matchCategory (q : Query) (d : Doc) : Bool :=
  match q.category with
  | some c => docGet d "category" == some (.str c)
  | none => true

/-- Modelled from the spec: the range constraint on the numeric price field
(§4.2 rule 2: lower-inclusive, upper-inclusive, only the present bounds). -/
def matchPrice (q : Query) (d : Doc) : Bool :=
  match q.price with
  | some pf =>
      match docGet d "price" with
      | some (.num x) =>
          pf.gte.all (fun lo => decide (lo ≤ x)) &&
          pf.lte.all (fun hi => decide (x ≤ hi))
      | _ => false
  | none => true

/-- Modelled from the spec: the membership constraint on the size-list
field (§4.2 rule 3: the record's size list must contain the value). -/
def matchSizes (q : Query) (d : Doc) : Bool :=
  match q.sizes with
  | some v =>
      match docGet d "sizes" with
      | some (.listStr l) => l.contains v
      | _ => false
  | none => true

/-- Modelled from the spec: the membership constraint on the color-list
field (§4.2 rule 4). -/
def matchColors (q : Query) (d : Doc) : Bool :=
  match q.colors with
  | some v =>
      match docGet d "colors" with
      | some (.listStr l) => l.contains v
      | none => false
      | some _ => false
  | none => true

/-- Modelled from the spec: evaluation of the `$or` disjunction (§4.2
rule 5: "a record matches if ANY of the three fields contains the
substring"). -/
def matchOr (oc : Option (List RegexClause)) (d : Doc) : Bool :=
  match oc with
  | some cs => cs.any (matchClause d)
  | none => true

/-- Modelled from the spec: whether a document satisfies a composite query —
§4.2: the constraints are "each independently applied and then combined
with logical AND"; an empty query matches all records. -/
def matchesQuery (q : Query) (d : Doc) : Bool :=
  matchCategory q d && matchPrice q d && matchSizes q d && matchColors q d &&
    matchOr q.orClauses d

/-- Modelled from the spec: the document store (§4.1, §9).  The connection
handle is threaded as `Option Store`; collections are addressed by name and
hold documents in insertion order; `counter` drives store-side identifier
generation. -/
structure Store where
  counter : Nat
  colls : String → List Doc

/-- Modelled from the spec: `database.get_documents` (not under `src/`) —
§4.1 `find`: "returns at most `limit` records, in store-native order",
those satisfying the composite query. -/
def get_documents (s : Store) (coll : String) (q : Query) (limit : Nat) :
    List Doc :=
  ((s.colls coll).filter (matchesQuery q)).take limit

/-- Modelled from the spec: `database.create_document` (not under `src/`) —
§4.1 `insert`: appends the record to the named collection with a fresh
store-generated identifier in its `_id` field and returns that identifier. -/
def create_document (s : Store) (coll : String) (doc : Doc) :
    ObjectId × Store :=
  let o := ObjectId.fresh s.counter
  (o, { counter := s.counter + 1,
        colls := fun c =>
          if c = coll then s.colls coll ++ [("_id", Value.oid o.hex) :: doc]
          else s.colls c })

/-- Modelled from the spec: `find_one({"_id": obj_id})` on the product
collection (executed by the external store client): the first document
whose `_id` field is that identifier. -/
def find_one (s : Store) (coll : String) (o : ObjectId) : Option Doc :=
  (s.colls coll).find? (fun d => decide (docGet d "_id" = some (.oid o.hex)))

/-- The id-normalisation loop of `list_products`, lines 170–172:
`if d.get("_id"): d["_id"] = str(d["_id"])`. -/
def normalizeId (d : Doc) : Doc :=
  match docGet d "_id" with
  | some v => if valueTruthy v then docSet d "_id" (.str (valueToString v)) else d
  | none => d

/-- `list_products` (lines 135–173): returns `[]` when the store is not
configured; otherwise builds the composite query, retrieves at most
`limit` matching documents and normalises each document's `_id` to its
string form. -/
def list_products (db : Option Store) (f : ProductFilter) (limit : Nat) :
    List Doc :=
  match db with
  | none => []
  | some s =>
      (get_documents s "clothingproduct" (buildQuery f) limit).map normalizeId

/-- The service's error outcomes (`HTTPException`s of the source, named as
in the spec's taxonomy §7). -/
inductive ApiError where
  | storeUnavailable
  | invalidIdentifier
  | notFound
deriving DecidableEq, Repr

/-- `get_product` (lines 177–188): 500 `StoreUnavailable` when the store is
not configured; 400 `InvalidIdentifier` when the id does not parse into the
store's native form; 404 `NotFound` when no document has that id (the
source's `if not doc:` is also false on an empty document); otherwise the
document with its `_id` replaced by its string form. -/
def get_product (db : Option Store) (product_id : String) :
    Except ApiError Doc :=
  match db with
  | none => .error .storeUnavailable
  | some s =>
      match ObjectId.parse product_id with
      | none => .error .invalidIdentifier
      | some o =>
          match find_one s "clothingproduct" o with
          | none => .error .notFound
          | some doc =>
              if doc.isEmpty then .error .notFound
              else
                .ok (docSet doc "_id"
                  (.str (valueToString ((docGet doc "_id").getD (.str "")))))

/-- The first hard-coded sample product of `seed_products` (lines 80–94). -/
def product1 : Doc :=
  [ ("title", .str "Men's Classic Denim Jacket"),
      ("description", .str "Timeless denim with a modern fit."),
      ("price", .num 79.99),
      ("category", .str "Men"),
      ("images", .listStr
        ["https://images.unsplash.com/photo-1520975916090-3105956dac38?q=80&w=1200&auto=format&fit=crop"]),
      ("sizes", .listStr ["S", "M", "L", "XL"]),
      ("colors", .listStr ["Blue"]),
      ("rating", .num 4.6),
      ("discount_percent", .num 10),
      ("in_stock", .bool true),
      ("tags", .listStr ["jacket", "denim", "men"]) ]

/-- The second hard-coded sample product of `seed_products` (lines 95–109). -/
def product2 : Doc :=
  [ ("title", .str "Women's Linen Summer Dress"),
      ("description", .str "Breathable, elegant, and perfect for warm days."),
      ("price", .num 64.50),
      ("category", .str "Women"),
      ("images", .listStr
        ["https://images.unsplash.com/photo-1519238263530-99bdd11df2ea?q=80&w=1200&auto=format&fit=crop"]),
      ("sizes", .listStr ["XS", "S", "M", "L"]),
      ("colors", .listStr ["Beige", "Olive"]),
      ("rating", .num 4.7),
      ("discount_percent", .num 0),
      ("in_stock", .bool true),
      ("tags", .listStr ["dress", "linen", "women"]) ]

/-- The third hard-coded sample product of `seed_products` (lines 110–124). -/
def product3 : Doc :=
  [ ("title", .str "Unisex Oversized Hoodie"),
      ("description", .str "Cozy fleece-lined hoodie for everyday comfort."),
      ("price", .num 49.00),
      ("category", .str "Accessories"),
      ("images", .listStr
        ["https://images.unsplash.com/photo-1516826957135-700dedea698c?q=80&w=1200&auto=format&fit=crop"]),
      ("sizes", .listStr ["S", "M", "L", "XL"]),
      ("colors", .listStr ["Black", "Grey"]),
      ("rating", .num 4.4),
      ("discount_percent", .num 15),
      ("in_stock", .bool true),
      ("tags", .listStr ["hoodie", "unisex"]) ]

/-- The `sample_products` list of `seed_products` (lines 79–125). -/
def sample_products : List Doc := [product1, product2, product3]

/-- `seed_products` (lines 75–131): fails with `StoreUnavailable` before
any insert when the store is not configured; otherwise inserts each sample
product in order via `create_document` and returns the collected
identifiers (paired here with the resulting store state). -/
def seed_products (db : Option Store) :
    Except ApiError (List ObjectId × Store) :=
  match db with
  | none => .error .storeUnavailable
  | some s =>
      .ok (sample_products.foldl
        (fun acc p =>
          let r := create_document acc.2 "clothingproduct" p
          (acc.1 ++ [r.1], r.2))
        ([], s))

/-! ## Helper lemmas -/

/-- Setting a present key makes lookup of that key return the new value. -/
theorem docGet_docSet_self (d : Doc) (k : String) (v : Value)
    (h : (docGet d k).isSome) : docGet (docSet d k v) k = some v := by
  induction d with
  | nil => simp [docGet] at h
  | cons p t ih =>
      by_cases hpk : p.1 = k
      · simp [docSet, docGet, hpk]
      · simp only [docSet, if_neg hpk]
        simp only [docGet, if_neg hpk] at h ⊢
        exact ih h

/-- Setting one key leaves lookups of every other key unchanged. -/
theorem docGet_docSet_ne (d : Doc) (k k' : String) (v : Value) (h : k' ≠ k) :
    docGet (docSet d k v) k' = docGet d k' := by
  induction d with
  | nil => rfl
  | cons p t ih =>
      by_cases hpk : p.1 = k
      · simp only [docSet, if_pos hpk, docGet, hpk]
        rw [if_neg (Ne.symm h), if_neg (Ne.symm h)]
        exact ih
      · simp only [docSet, if_neg hpk, docGet, ih]

/-- A document found by `find_one` carries the looked-up identifier in its
`_id` field, and `get_product` then succeeds with the identifier replaced by
its string form. -/
theorem get_product_found (s : Store) (pid : String) (o : ObjectId) (doc : Doc)
    (ho : ObjectId.parse pid = some o)
    (hf : find_one s "clothingproduct" o = some doc) :
    docGet doc "_id" = some (.oid o.hex)
    ∧ get_product (some s) pid = .ok (docSet doc "_id" (.str o.hex)) := by
  have hp := List.find?_some hf
  have hid : docGet doc "_id" = some (.oid o.hex) := of_decide_eq_true hp
  have hne : doc.isEmpty = false := by
    cases doc with
    | nil => simp [docGet] at hid
    | cons a l => rfl
  refine ⟨hid, ?_⟩
  simp [get_product, ho, hf, hne, hid, valueToString]

/-! ## The claims -/

/-- Claim C2: the composite query contains a price constraint iff at least
one of `min_price` and `max_price` is present, and when present it carries
exactly the present bounds — the lower (`$gte`, inclusive) exactly when
`min_price` is present, the upper (`$lte`, inclusive) exactly when
`max_price` is present, an absent bound staying absent rather than becoming
a sentinel such as 0 or infinity. -/
theorem price_constraint_exactly_present_bounds (f : ProductFilter) :
    ((buildQuery f).price ≠ none ↔ (f.min_price ≠ none ∨ f.max_price ≠ none))
    ∧ (∀ pf : PriceFilter, (buildQuery f).price = some pf →
        pf.gte = f.min_price ∧ pf.lte = f.max_price) := by
  cases hm : f.min_price <;> cases hx : f.max_price <;>
    simp [buildQuery, hm, hx]

/-- Witness for C2 at a concrete filter with only `min_price` set. -/
theorem price_constraint_exactly_present_bounds_applied :
    (buildQuery ⟨none, some 7, none, none, none, none⟩).price = some ⟨some 7, none⟩ := by
  have h := price_constraint_exactly_present_bounds
    ⟨none, some 7, none, none, none, none⟩
  cases hp : (buildQuery ⟨none, some 7, none, none, none, none⟩).price with
  | none => exact absurd (h.1.mpr (Or.inl (by simp))) (by simp [hp])
  | some pf =>
      have h2 := h.2 pf hp
      cases pf
      simp only at h2
      rw [h2.1, h2.2]

/-- Claim C10: presence of a filter field is decided asymmetrically — a
`category`, `size`, `color` or free-text `q` equal to the empty string
contributes no constraint (Python string truthiness), whereas a `min_price`
or `max_price` equal to 0 is treated as present (`is not None`) and emits
the corresponding bound. -/
theorem empty_string_absent_but_zero_price_present (f : ProductFilter) :
    (f.category = some "" → (buildQuery f).category = none)
    ∧ (f.size = some "" → (buildQuery f).sizes = none)
    ∧ (f.color = some "" → (buildQuery f).colors = none)
    ∧ (f.q = some "" → (buildQuery f).orClauses = none)
    ∧ (f.min_price = some 0 →
        (buildQuery f).price = some ⟨some 0, f.max_price⟩)
    ∧ (f.max_price = some 0 →
        (buildQuery f).price = some ⟨f.min_price, some 0⟩) := by
  refine ⟨fun h => ?_, fun h => ?_, fun h => ?_, fun h => ?_, fun h => ?_,
    fun h => ?_⟩ <;> simp [buildQuery, h, optStrTruthy]

/-- Witness for C10 at the filter whose string fields are all empty and
whose price bounds are both 0. -/
theorem empty_string_absent_but_zero_price_present_applied :
    (buildQuery ⟨some "", some 0, some 0, some "", some "", some ""⟩).category = none
    ∧ (buildQuery ⟨some "", some 0, some 0, some "", some "", some ""⟩).sizes = none
    ∧ (buildQuery ⟨some "", some 0, some 0, some "", some "", some ""⟩).colors = none
    ∧ (buildQuery ⟨some "", some 0, some 0, some "", some "", some ""⟩).orClauses = none
    ∧ (buildQuery ⟨some "", some 0, some 0, some "", some "", some ""⟩).price
        = some ⟨some 0, some 0⟩ := by
  have h := empty_string_absent_but_zero_price_present
    ⟨some "", some 0, some 0, some "", some "", some ""⟩
  exact ⟨h.1 rfl, h.2.1 rfl, h.2.2.1 rfl, h.2.2.2.1 rfl, h.2.2.2.2.1 rfl⟩

/-- Claim C6: with the store not configured, `list_products` returns the
empty sequence without failing, while `seed_products` and `get_product`
fail with `StoreUnavailable`; `seed_products` fails before any insert — its
error branch produces no store state at all. -/
theorem unconfigured_store_behaviour (f : ProductFilter) (limit : Nat)
    (pid : String) :
    list_products none f limit = []
    ∧ seed_products none = .error .storeUnavailable
    ∧ get_product none pid = .error .storeUnavailable :=
  ⟨rfl, rfl, rfl⟩

/-- Claim C3: an all-absent filter builds the empty (universal) composite
query: every document matches it, and `list_products` applies no constraint,
returning the collection's documents (id-normalised) capped at `limit`. -/
theorem empty_filter_universal_query (f : ProductFilter) (s : Store)
    (limit : Nat) (h : f = ⟨none, none, none, none, none, none⟩) :
    buildQuery f = emptyQuery
    ∧ (∀ d : Doc, matchesQuery (buildQuery f) d = true)
    ∧ list_products (some s) f limit
        = ((s.colls "clothingproduct").take limit).map normalizeId
    ∧ (list_products (some s) f limit).length ≤ limit := by
  subst h
  have hall : ∀ d : Doc, matchesQuery emptyQuery d = true := fun d => rfl
  have hfilter : (s.colls "clothingproduct").filter
      (matchesQuery (buildQuery ⟨none, none, none, none, none, none⟩))
      = s.colls "clothingproduct" :=
    List.filter_eq_self.mpr (fun a _ => hall a)
  have h3 : list_products (some s) ⟨none, none, none, none, none, none⟩ limit
      = ((s.colls "clothingproduct").take limit).map normalizeId := by
    simp only [list_products, get_documents, hfilter]
  refine ⟨rfl, fun d => hall d, h3, ?_⟩
  rw [h3, List.length_map, List.length_take]
  exact Nat.min_le_left _ _

/-- Witness for C3: a one-document store listed with the all-absent filter
returns that document unchanged. -/
theorem empty_filter_universal_query_applied :
    list_products (some ⟨0, fun _ => [[("title", Value.str "A")]]⟩)
      ⟨none, none, none, none, none, none⟩ 50
      = [[("title", Value.str "A")]] := by
  have h := empty_filter_universal_query ⟨none, none, none, none, none, none⟩
    ⟨0, fun _ => [[("title", Value.str "A")]]⟩ 50 rfl
  rw [h.2.2.1]
  decide

/-- Claim C1: a present (non-empty) free-text query puts into the composite
query a `$or` disjunction of exactly three case-insensitive pattern clauses
— one on title, one on description, one on tags — and a document matches
that disjunction iff at least one of the three fields contains the query
string case-insensitively. -/
theorem free_text_disjunction (f : ProductFilter) (qs : String)
    (hq : f.q = some qs) (hne : qs ≠ "") :
    (buildQuery f).orClauses
      = some [⟨"title", qs, true⟩, ⟨"description", qs, true⟩,
              ⟨"tags", qs, true⟩]
    ∧ ∀ d : Doc,
        (matchOr (buildQuery f).orClauses d = true
          ↔ (fieldContainsCI d "title" qs = true
             ∨ fieldContainsCI d "description" qs = true
             ∨ fieldContainsCI d "tags" qs = true)) := by
  have h1 : (buildQuery f).orClauses
      = some [⟨"title", qs, true⟩, ⟨"description", qs, true⟩,
              ⟨"tags", qs, true⟩] := by
    simp [buildQuery, hq, hne]
  refine ⟨h1, fun d => ?_⟩
  rw [h1]
  simp [matchOr, matchClause]

/-- Witness for C1: the query "SUMMER" against a record titled
"Summer Dress" (the spec's case-insensitivity example). -/
theorem free_text_disjunction_applied :
    (buildQuery ⟨none, none, none, none, none, some "SUMMER"⟩).orClauses
      = some [⟨"title", "SUMMER", true⟩, ⟨"description", "SUMMER", true⟩,
              ⟨"tags", "SUMMER", true⟩]
    ∧ (matchOr
          (buildQuery ⟨none, none, none, none, none, some "SUMMER"⟩).orClauses
          [("title", Value.str "Summer Dress")] = true
        ↔ (fieldContainsCI [("title", Value.str "Summer Dress")] "title"
              "SUMMER" = true
           ∨ fieldContainsCI [("title", Value.str "Summer Dress")]
              "description" "SUMMER" = true
           ∨ fieldContainsCI [("title", Value.str "Summer Dress")] "tags"
              "SUMMER" = true)) :=
  ⟨(free_text_disjunction ⟨none, none, none, none, none, some "SUMMER"⟩
      "SUMMER" rfl (by decide)).1,
   (free_text_disjunction ⟨none, none, none, none, none, some "SUMMER"⟩
      "SUMMER" rfl (by decide)).2 [("title", Value.str "Summer Dress")]⟩

/-- Claim C9: a stored document that lacks the identifier field does not
break retrieval — `normalizeId` leaves it unchanged (the field is simply
omitted from the output), and when it matches the query it appears as-is in
the output of `list_products`; no field's absence causes a failure. -/
theorem missing_id_omitted_not_crash (s : Store) (f : ProductFilter)
    (limit : Nat) (d : Doc) (hd : docGet d "_id" = none)
    (hmem : d ∈ ((s.colls "clothingproduct").filter
        (matchesQuery (buildQuery f))).take limit) :
    normalizeId d = d ∧ d ∈ list_products (some s) f limit := by
  have h1 : normalizeId d = d := by simp [normalizeId, hd]
  refine ⟨h1, ?_⟩
  simp only [list_products, get_documents]
  rw [← h1]
  exact List.mem_map_of_mem normalizeId hmem

/-- Witness for C9: listing a store whose only document has no `_id`
returns that document unchanged. -/
theorem missing_id_omitted_not_crash_applied :
    normalizeId [("title", Value.str "T")] = [("title", Value.str "T")]
    ∧ [("title", Value.str "T")]
        ∈ list_products (some ⟨0, fun _ => [[("title", Value.str "T")]]⟩)
            ⟨none, none, none, none, none, none⟩ 50 :=
  missing_id_omitted_not_crash ⟨0, fun _ => [[("title", Value.str "T")]]⟩
    ⟨none, none, none, none, none, none⟩ 50 [("title", Value.str "T")]
    rfl (by decide)

/-- A concrete stored document with a store-native identifier, for witness
instantiations. -/
def docA : Doc :=
  [("_id", Value.oid "aaaaaaaaaaaaaaaaaaaaaaaa"), ("title", Value.str "X")]

/-- A concrete configured store holding only `docA`. -/
def storeA : Store := ⟨1, fun _ => [docA]⟩

/-- Claim C5: with the store configured, `get_product` fails with
`InvalidIdentifier` (never `NotFound`) when the id does not parse into the
store's native identifier form, fails with `NotFound` when it parses but no
document carries that identifier, and on success returns the found document
with its identifier normalised to string form. -/
theorem get_by_id_error_taxonomy (s : Store) (pid : String) :
    (ObjectId.parse pid = none →
        get_product (some s) pid = .error .invalidIdentifier)
    ∧ (∀ o : ObjectId, ObjectId.parse pid = some o →
        find_one s "clothingproduct" o = none →
        get_product (some s) pid = .error .notFound)
    ∧ (∀ (o : ObjectId) (doc : Doc), ObjectId.parse pid = some o →
        find_one s "clothingproduct" o = some doc →
        get_product (some s) pid = .ok (docSet doc "_id" (.str o.hex))) := by
  refine ⟨fun h => ?_, fun o ho hf => ?_, fun o doc ho hf => ?_⟩
  · simp [get_product, h]
  · simp [get_product, ho, hf]
  · exact (get_product_found s pid o doc ho hf).2

/-- Witness for C5: on a concrete one-document store, the empty id is
rejected as invalid, a well-formed unknown id yields not-found, and the
stored id succeeds with a string identifier. -/
theorem get_by_id_error_taxonomy_applied :
    get_product (some storeA) "" = .error .invalidIdentifier
    ∧ get_product (some storeA) "000000000000000000000000" = .error .notFound
    ∧ get_product (some storeA) "aaaaaaaaaaaaaaaaaaaaaaaa"
        = .ok [("_id", Value.str "aaaaaaaaaaaaaaaaaaaaaaaa"),
               ("title", Value.str "X")] :=
  ⟨(get_by_id_error_taxonomy storeA "").1 (by decide),
   (get_by_id_error_taxonomy storeA "000000000000000000000000").2.1
      ⟨"000000000000000000000000"⟩ (by decide) (by decide),
   ((get_by_id_error_taxonomy storeA "aaaaaaaaaaaaaaaaaaaaaaaa").2.2
      ⟨"aaaaaaaaaaaaaaaaaaaaaaaa"⟩ docA (by decide) (by decide)).trans
     (congrArg Except.ok (by decide))⟩

/-- Claim C7: retrieval replaces the identifier field by its canonical
string form and leaves every other field exactly as stored —
`list_products` is exactly `normalizeId` mapped over the retrieved
documents, `normalizeId` turns a native `_id` into its string form without
touching any other key (absent keys stay absent), and `get_product` returns
the found document with only `_id` rewritten. -/
theorem id_string_form_frame (d : Doc) (o : String)
    (hid : docGet d "_id" = some (.oid o)) :
    docGet (normalizeId d) "_id" = some (.str o)
    ∧ (∀ k : String, k ≠ "_id" → docGet (normalizeId d) k = docGet d k)
    ∧ (∀ (s : Store) (f : ProductFilter) (limit : Nat),
        list_products (some s) f limit
          = (get_documents s "clothingproduct" (buildQuery f) limit).map
              normalizeId)
    ∧ (∀ (s : Store) (pid : String) (oid : ObjectId) (doc : Doc),
        ObjectId.parse pid = some oid →
        find_one s "clothingproduct" oid = some doc →
        get_product (some s) pid = .ok (docSet doc "_id" (.str oid.hex))
        ∧ ∀ k : String, k ≠ "_id" →
            docGet (docSet doc "_id" (.str oid.hex)) k = docGet doc k) := by
  have hnorm : normalizeId d = docSet d "_id" (.str o) := by
    simp [normalizeId, hid, valueTruthy, valueToString]
  refine ⟨?_, ?_, fun s f limit => rfl, fun s pid oid doc ho hf => ?_⟩
  · rw [hnorm]
    exact docGet_docSet_self d "_id" _ (by simp [hid])
  · intro k hk
    rw [hnorm]
    exact docGet_docSet_ne d "_id" k _ hk
  · exact ⟨(get_product_found s pid oid doc ho hf).2,
      fun k hk => docGet_docSet_ne doc "_id" k _ hk⟩

/-- Witness for C7 on `docA`: the identifier comes back as a string and the
title field is untouched. -/
theorem id_string_form_frame_applied :
    docGet (normalizeId docA) "_id"
      = some (.str "aaaaaaaaaaaaaaaaaaaaaaaa")
    ∧ docGet (normalizeId docA) "title" = docGet docA "title" :=
  ⟨(id_string_form_frame docA "aaaaaaaaaaaaaaaaaaaaaaaa" (by decide)).1,
   (id_string_form_frame docA "aaaaaaaaaaaaaaaaaaaaaaaa" (by decide)).2.1
      "title" (by decide)⟩

/-- The spec's record R1: category "Men", price 80 (with a stored id). -/
def recordR1 : Doc :=
  [("_id", Value.oid "aaaaaaaaaaaaaaaaaaaaaaaa"),
   ("category", Value.str "Men"), ("price", Value.num 80)]

/-- The spec's record R2: category "Men", price 40 (with a stored id). -/
def recordR2 : Doc :=
  [("_id", Value.oid "bbbbbbbbbbbbbbbbbbbbbbbb"),
   ("category", Value.str "Men"), ("price", Value.num 40)]

/-- A configured store holding exactly R1 and R2. -/
def storeMen : Store := ⟨2, fun _ => [recordR1, recordR2]⟩

/-- Claim C4: active filter constraints combine conjunctively — every
document retrieved satisfies each active constraint (category, price,
sizes, colors, and the free-text disjunction, which narrows rather than
replaces the others) simultaneously; in particular, with records R1
(category "Men", price 80) and R2 (category "Men", price 40) stored,
listing with category "Men" and min_price 50 returns only R1. -/
theorem conjunctive_filters (s : Store) (f : ProductFilter) (limit : Nat)
    (d : Doc)
    (hmem : d ∈ get_documents s "clothingproduct" (buildQuery f) limit) :
    (matchCategory (buildQuery f) d = true
     ∧ matchPrice (buildQuery f) d = true
     ∧ matchSizes (buildQuery f) d = true
     ∧ matchColors (buildQuery f) d = true
     ∧ matchOr (buildQuery f).orClauses d = true)
    ∧ list_products (some storeMen)
        ⟨some "Men", some 50, none, none, none, none⟩ 50
        = [[("_id", Value.str "aaaaaaaaaaaaaaaaaaaaaaaa"),
            ("category", Value.str "Men"), ("price", Value.num 80)]] := by
  constructor
  · simp only [get_documents] at hmem
    have hd : d ∈ (s.colls "clothingproduct").filter
        (matchesQuery (buildQuery f)) := List.take_subset _ _ hmem
    have hq := (List.mem_filter.mp hd).2
    simp only [matchesQuery, Bool.and_eq_true] at hq
    tauto
  · decide

/-- Witness for C4: R1 itself is retrieved by the {category "Men",
min_price 50} filter and satisfies every active constraint. -/
theorem conjunctive_filters_applied :
    (matchCategory (buildQuery ⟨some "Men", some 50, none, none, none, none⟩)
        recordR1 = true
     ∧ matchPrice (buildQuery ⟨some "Men", some 50, none, none, none, none⟩)
        recordR1 = true
     ∧ matchSizes (buildQuery ⟨some "Men", some 50, none, none, none, none⟩)
        recordR1 = true
     ∧ matchColors (buildQuery ⟨some "Men", some 50, none, none, none, none⟩)
        recordR1 = true
     ∧ matchOr (buildQuery
          ⟨some "Men", some 50, none, none, none, none⟩).orClauses
        recordR1 = true)
    ∧ list_products (some storeMen)
        ⟨some "Men", some 50, none, none, none, none⟩ 50
        = [[("_id", Value.str "aaaaaaaaaaaaaaaaaaaaaaaa"),
            ("category", Value.str "Men"), ("price", Value.num 80)]] :=
  conjunctive_filters storeMen ⟨some "Men", some 50, none, none, none, none⟩
    50 recordR1 (by decide)

/-- Claim C8: with the store configured, `seed_products` inserts the three
sample products in order into the `clothingproduct` collection (each
receiving its store-generated identifier) and returns exactly three
identifiers, one per input record, in input order. -/
theorem seed_three_ids_in_order (s : Store) :
    ∃ s' : Store,
      seed_products (some s)
        = .ok ([ObjectId.fresh s.counter, ObjectId.fresh (s.counter + 1),
                ObjectId.fresh (s.counter + 2)], s')
      ∧ s'.colls "clothingproduct"
          = s.colls "clothingproduct"
            ++ [("_id", Value.oid (ObjectId.fresh s.counter).hex)
                  :: product1,
                ("_id", Value.oid (ObjectId.fresh (s.counter + 1)).hex)
                  :: product2,
                ("_id", Value.oid (ObjectId.fresh (s.counter + 2)).hex)
                  :: product3]
      ∧ ([ObjectId.fresh s.counter, ObjectId.fresh (s.counter + 1),
          ObjectId.fresh (s.counter + 2)] : List ObjectId).length = 3 := by
  refine ⟨_, rfl, ?_, rfl⟩
  simp [seed_products, create_document, sample_products, List.append_assoc]

end StyleAura
